import Mathlib

/-!
# oplogtoredis: configuration and process orchestration

A shallow embedding of `lib/config/main.go` (the configuration singleton filled
by `envconfig.Process`) and of `main.go` (start-up, worker launch, shutdown).

External calls (environment lookup, Mongo/Redis connection attempts, signal
delivery) are inputs collected in a `World`; the run of `main` is the ordered
list of externally visible actions it performs.
-/

namespace Oplogtoredis

/-! ## lib/config -/

namespace config

/-- The struct `oplogtoredisConfiguration`. `int` and `time.Duration` are
64-bit signed integers; durations count nanoseconds. -/
structure oplogtoredisConfiguration where
  RedisURL : String
  MongoURL : String
  BufferSize : Int
  TimestampFlushInterval : Int
  MaxCatchUp : Int
  RedisDedupeExpiration : Int
  RedisMetadataPrefix : String
  deriving DecidableEq, Repr

/-- Go zero value of the struct (`var config oplogtoredisConfiguration`). -/
def zeroConfiguration : oplogtoredisConfiguration :=
  ⟨"", "", 0, 0, 0, 0, ""⟩

/-- The seven fields of the struct, in declaration order. -/
inductive Field
  | RedisURL | MongoURL | BufferSize | TimestampFlushInterval
  | MaxCatchUp | RedisDedupeExpiration | RedisMetadataPrefix
  deriving DecidableEq, Repr

/-- Go identifier of the field. -/
def Field.goName : Field → String
  | .RedisURL => "RedisURL"
  | .MongoURL => "MongoURL"
  | .BufferSize => "BufferSize"
  | .TimestampFlushInterval => "TimestampFlushInterval"
  | .MaxCatchUp => "MaxCatchUp"
  | .RedisDedupeExpiration => "RedisDedupeExpiration"
  | .RedisMetadataPrefix => "RedisMetadataPrefix"

/-- The struct tag `required:"true"`. -/
def Field.required : Field → Bool
  | .RedisURL => true
  | .MongoURL => true
  | _ => false

/-- The struct tag `default:"..."` (empty when the tag is absent). -/
def Field.default : Field → String
  | .RedisURL => ""
  | .MongoURL => ""
  | .BufferSize => "10000"
  | .TimestampFlushInterval => "1s"
  | .MaxCatchUp => "60s"
  | .RedisDedupeExpiration => "120s"
  | .RedisMetadataPrefix => "oplogtoredis::"

/-- The struct tag `split_words:"true"`, present on every field. -/
def Field.splitWords : Field → Bool
  | _ => true

def allFields : List Field :=
  [.RedisURL, .MongoURL, .BufferSize, .TimestampFlushInterval,
   .MaxCatchUp, .RedisDedupeExpiration, .RedisMetadataPrefix]

end config

/-! ## envconfig (library model)

`github.com/kelseyhightower/envconfig` is an external dependency. The model
below follows its documented treatment of the tags used by the struct:
`split_words`, `default`, `required`. -/

namespace envconfig

/-- The process environment as seen through `os.LookupEnv`. -/
abbrev Env := String → Option String

def isUpperAZ (c : Char) : Bool := decide ('A' ≤ c) && decide (c ≤ 'Z')

/-- All matches of the regular expression `([^A-Z]+|[A-Z][^A-Z]+|[A-Z]+)` by
which `envconfig` splits a field name into words, leftmost-first with greedy
repetition. The first argument bounds the number of matches (the input length
suffices). -/
def gatherWords : Nat → List Char → List (List Char)
  | 0, _ => []
  | _, [] => []
  | fuel + 1, c :: rest =>
    if !isUpperAZ c then
      (c :: rest.takeWhile (fun d => !isUpperAZ d))
        :: gatherWords fuel (rest.dropWhile (fun d => !isUpperAZ d))
    else
      match rest with
      | [] => [[c]]
      | d :: _ =>
        if !isUpperAZ d then
          (c :: rest.takeWhile (fun e => !isUpperAZ e))
            :: gatherWords fuel (rest.dropWhile (fun e => !isUpperAZ e))
        else
          (c :: rest.takeWhile isUpperAZ)
            :: gatherWords fuel (rest.dropWhile isUpperAZ)

/-- Environment variable consulted for a field: the field name, split into
words joined by `_` when `split_words` is set, prefixed by `<prefix>_`, and
upper-cased. -/
def keyOf (pfx : String) (f : config.Field) : String :=
  let name := f.goName.data
  let words := gatherWords name.length name
  let key := if f.splitWords && !words.isEmpty
    then List.intercalate ['_'] words else name
  let key := if pfx ≠ "" then pfx.data ++ '_' :: key else key
  String.mk (key.map Char.toUpper)

/-- Decimal digits, at least one (the common core of `strconv.ParseInt` in
base 10 and of the integer part read by `time.ParseDuration`). -/
def parseDigits (cs : List Char) : Option Nat :=
  if cs.isEmpty then none
  else
    cs.foldlM (fun acc c => if c.isDigit then some (acc * 10 + (c.toNat - 48)) else none) 0

/-- A decimal numeral as `strconv.ParseInt` reads it in base 0: digits that do
not start with `0`, or the single digit `0`. -/
def parseDecimal (ds : List Char) : Option Nat :=
  if ds.head? = some '0' ∧ ds.length ≠ 1 then none else parseDigits ds

/-- Model of `strconv.ParseInt(value, 0, 64)` on signed decimal numerals with
the int64 range check. Numerals with a base marker (`0x`, `0b`, `0o`, a
leading `0`) or underscores are outside the model and reported as errors. -/
def parseInt (value : String) : Option Int :=
  match value.data with
  | '-' :: ds =>
    (parseDecimal ds).bind fun n => if n ≤ 2 ^ 63 then some (-(n : Int)) else none
  | '+' :: ds =>
    (parseDecimal ds).bind fun n => if n < 2 ^ 63 then some (n : Int) else none
  | ds =>
    (parseDecimal ds).bind fun n => if n < 2 ^ 63 then some (n : Int) else none

/-- Nanoseconds in a unit accepted by `time.ParseDuration`. -/
def unitNanos (u : List Char) : Option Nat :=
  if u = ['n', 's'] then some 1
  else if u = ['u', 's'] then some 1000
  else if u = ['µ', 's'] then some 1000
  else if u = ['μ', 's'] then some 1000
  else if u = ['m', 's'] then some 1000000
  else if u = ['s'] then some 1000000000
  else if u = ['m'] then some 60000000000
  else if u = ['h'] then some 3600000000000
  else none

/-- The `(digits unit)+` part of a duration; the accumulator is the sum so
far, which may not exceed 2^63. -/
def parseDurationParts : Nat → List Char → Nat → Option Nat
  | 0, _, _ => none
  | fuel + 1, cs, acc =>
    let ds := cs.takeWhile Char.isDigit
    let rest := cs.dropWhile Char.isDigit
    let us := rest.takeWhile (fun c => c != '.' && !c.isDigit)
    let rest2 := rest.dropWhile (fun c => c != '.' && !c.isDigit)
    match parseDigits ds, unitNanos us with
    | some n, some u =>
      let acc2 := acc + n * u
      if acc2 > 2 ^ 63 then none
      else if rest2.isEmpty then some acc2
      else parseDurationParts fuel rest2 acc2
    | _, _ => none

/-- Model of `time.ParseDuration` on durations without a fractional part:
an optional sign, then either `0` or a sequence of decimal numbers each with a
unit suffix. Fractions such as `1.5s` are outside the model and reported as
errors. The result counts nanoseconds. -/
def parseDuration (value : String) : Option Int :=
  let body (cs : List Char) (neg : Bool) : Option Int :=
    if cs = ['0'] then some 0
    else match parseDurationParts cs.length cs 0 with
      | some n =>
        if neg then some (-(n : Int))
        else if n < 2 ^ 63 then some (n : Int) else none
      | none => none
  match value.data with
  | '-' :: cs => body cs true
  | '+' :: cs => body cs false
  | cs => body cs false

/-- The function `processField` for the three field types of the struct: the
string is stored as is, numbers and durations are parsed. `none` is a
conversion error. -/
def processField (value : String) (f : config.Field)
    (c : config.oplogtoredisConfiguration) : Option config.oplogtoredisConfiguration :=
  match f with
  | .RedisURL => some { c with RedisURL := value }
  | .MongoURL => some { c with MongoURL := value }
  | .BufferSize => (parseInt value).map fun n => { c with BufferSize := n }
  | .TimestampFlushInterval =>
    (parseDuration value).map fun n => { c with TimestampFlushInterval := n }
  | .MaxCatchUp => (parseDuration value).map fun n => { c with MaxCatchUp := n }
  | .RedisDedupeExpiration =>
    (parseDuration value).map fun n => { c with RedisDedupeExpiration := n }
  | .RedisMetadataPrefix => some { c with RedisMetadataPrefix := value }

/-- The loop of `envconfig.Process` over the fields still to fill: look the key
up; an unset variable takes the default when there is one; an unset variable
without default is an error when required and skipped otherwise; the value is
then converted and stored. The error is the text of `err.Error()` (the
`details:` part of a conversion error is left out). -/
def processFields (pfx : String) (env : Env) :
    List config.Field → config.oplogtoredisConfiguration →
      Except String config.oplogtoredisConfiguration
  | [], c => .ok c
  | f :: fs, c =>
    let key := keyOf pfx f
    let ok := (env key).isSome
    let value := (env key).getD ""
    let dflt := f.default
    let value := if dflt ≠ "" ∧ !ok then dflt else value
    if !ok ∧ dflt = "" then
      if f.required then .error ("required key " ++ key ++ " missing value")
      else processFields pfx env fs c
    else
      match processField value f c with
      | none =>
        .error ("envconfig.Process: assigning " ++ key ++ " to " ++ f.goName
          ++ ": converting '" ++ value ++ "'")
      | some c2 => processFields pfx env fs c2

/-- Model of `envconfig.Process(prefix, &config)` for the configuration
struct, starting from the value the struct holds. -/
def Process (pfx : String) (env : Env) (c : config.oplogtoredisConfiguration) :
    Except String config.oplogtoredisConfiguration :=
  processFields pfx env config.allFields c

end envconfig

namespace config

/-- `ParseEnv`: processes the environment into a fresh struct; on error
returns it and leaves `globalConfig` alone, otherwise stores the pointer to the
struct in `globalConfig`. The result pairs the returned error (`none` is Go
`nil`) with the new value of `globalConfig`. -/
def ParseEnv (env : envconfig.Env) (globalConfig : Option oplogtoredisConfiguration) :
    Option String × Option oplogtoredisConfiguration :=
  match envconfig.Process "otr" env zeroConfiguration with
  | .error err => (some err, globalConfig)
  | .ok cfg => (none, some cfg)

/-! The accessors dereference `globalConfig`; `none` is the nil-pointer
dereference (a run-time panic). -/

def RedisURL (globalConfig : Option oplogtoredisConfiguration) : Option String :=
  globalConfig.map (·.RedisURL)

def MongoURL (globalConfig : Option oplogtoredisConfiguration) : Option String :=
  globalConfig.map (·.MongoURL)

def BufferSize (globalConfig : Option oplogtoredisConfiguration) : Option Int :=
  globalConfig.map (·.BufferSize)

def TimestampFlushInterval (globalConfig : Option oplogtoredisConfiguration) : Option Int :=
  globalConfig.map (·.TimestampFlushInterval)

def MaxCatchUp (globalConfig : Option oplogtoredisConfiguration) : Option Int :=
  globalConfig.map (·.MaxCatchUp)

def RedisDedupeExpiration (globalConfig : Option oplogtoredisConfiguration) : Option Int :=
  globalConfig.map (·.RedisDedupeExpiration)

def RedisMetadataPrefix (globalConfig : Option oplogtoredisConfiguration) : Option String :=
  globalConfig.map (·.RedisMetadataPrefix)

end config

/-! ## main.go -/

/-- The `*mgo.DialInfo` that `mongourl.Parse` returns; `main` only hands it on
to `mgo.DialWithInfo`. -/
abbrev DialInfo := String

/-- The fields of the `*redis.Options` returned by `redis.ParseURL` that
`createRedisClient` reads. -/
structure RedisOptions where
  Addr : String
  DB : Int
  Password : String
  deriving DecidableEq, Repr

/-- The fields of `redis.UniversalOptions` that `createRedisClient` sets. -/
structure UniversalOptions where
  Addrs : List String
  DB : Int
  Password : String
  deriving DecidableEq, Repr

/-- The fields of `gtm.Options` relevant here. `After` is the option by which
a caller of `gtm.Start` chooses the oplog timestamp to start from; `none` is
the Go zero value of a field the literal does not set, with which gtm starts
at the end of the oplog. -/
structure gtmOptions where
  After : Option Int
  ChannelSize : Int
  BufferDuration : Int
  UpdateDataAsDelta : Bool
  WorkerCount : Int
  deriving DecidableEq, Repr

/-- The struct `redispub.PublishOpts` as filled by `main`. -/
structure PublishOpts where
  FlushInterval : Int
  DedupeExpiration : Int
  MetadataPrefix : String
  deriving DecidableEq, Repr

/-- The channels `main` creates or uses. -/
inductive Chan
  | redisPubs | stopOplogTail | stopRedisPub | signalChan | OpC | ErrC
  deriving DecidableEq, Repr

/-- The actions of a run, named after the call or statement that performs
them. `accessor f` is a call of the accessor of field `f` in `lib/config`;
`nilDereference` is the run-time panic of dereferencing a nil pointer;
`waitForever` stands for a receive that never completes. -/
inductive Action
  | ParseEnv
  | accessor (f : config.Field)
  | NewStdLogAt
  | mgoSetLogger
  | mongourlParse (url : String)
  | DialWithInfo (dialInfo : DialInfo)
  | SetMode
  | gtmStart (opts : gtmOptions)
  | goLogErrors (errC : Chan)
  | redisSetLogger
  | redisParseURL (url : String)
  | NewUniversalClient (opts : UniversalOptions)
  | Ping
  | logInfo (msg : String)
  | makeChan (c : Chan) (capacity : Nat)
  | goTail (opC : Chan) (out : Chan) (stop : Chan)
  | goPublishStream (inp : Chan) (opts : PublishOpts) (stop : Chan)
  | signalNotify (c : Chan)
  | recvSignal (c : Chan)
  | logWarnf (sig : String)
  | signalReset
  | send (c : Chan) (v : Bool)
  | logErrorw (msg : String) (key : String) (err : String)
  | redisClose
  | gtmStop
  | mongoClose
  | logSync
  | panic (msg : String)
  | nilDereference
  | waitForever
  deriving DecidableEq, Repr

/-! ### lib/oplog (modelled from the specification) -/

namespace oplog

/-- Modelled from the spec: a Change Entry read from the source, reduced to
what decides the channel names: the namespace (database and collection) and the
document identifier, absent for collection-level operations. The package
`lib/oplog` itself is missing from the sources. -/
structure ChangeEntry where
  database : String
  collection : String
  documentId : Option String
  deriving DecidableEq, Repr

/-- Modelled from the spec: the Publication Record built by `oplog.Tail`
(type `redispub.Publication`, missing from the sources), reduced to its target
channel and the entry it was built from. -/
structure Publication where
  Channel : String
  entry : ChangeEntry
  deriving DecidableEq, Repr

/-- Modelled from the spec: the records one entry expands into, "one on the
namespace-wide channel `<db>.<collection>`, one on the document-scoped channel
`<db>.<collection>::<id>` when a document id is present". -/
def publicationsOf (e : ChangeEntry) : List Publication :=
  let ns := e.database ++ "." ++ e.collection
  match e.documentId with
  | none => [⟨ns, e⟩]
  | some id => [⟨ns, e⟩, ⟨ns ++ "::" ++ id, e⟩]

/-- Modelled from the spec: the records `oplog.Tail(sourceStream, outputQueue,
stopSignal)` pushes for the entries it reads from its source stream, in
arrival order. The function takes no configuration value. -/
def Tail (sourceStream : List ChangeEntry) : List Publication :=
  (sourceStream.map publicationsOf).flatten

end oplog

/-- Everything outside the program that a run depends on. An `Option String`
outcome is the Go `error` of the call (`none` is `nil`). -/
structure World where
  /-- Process environment. -/
  env : envconfig.Env
  /-- Outcome of `zap.NewStdLogAt` in `createGTMClient`. -/
  stdLogMongo : Option String
  /-- The function `mongourl.Parse`. -/
  mongourlParse : String → Except String DialInfo
  /-- Outcome of `mgo.DialWithInfo`. -/
  mgoDial : DialInfo → Option String
  /-- Outcome of `zap.NewStdLogAt` in `createRedisClient`. -/
  stdLogRedis : Option String
  /-- The function `redis.ParseURL`. -/
  redisParseURL : String → Except String RedisOptions
  /-- Outcome of `client.Ping().Result()`. -/
  redisPing : UniversalOptions → Option String
  /-- The interrupt signal delivered to the process, if one ever is. -/
  interrupt : Option String
  /-- Timestamp of the last processed entry as stored in Redis (seconds), if any. -/
  checkpoint : Option Int
  /-- Wall-clock time at start-up (seconds). -/
  now : Int
  /-- The oplog entries gtm delivers on `gtmSession.OpC`, in order. -/
  oplogEntries : List oplog.ChangeEntry

/-- How a called function ends: it returns a value, returns a Go error, or
dies with a run-time panic. -/
inductive Outcome (α : Type)
  | ok (a : α)
  | err (msg : String)
  | crash
  deriving Repr

def Outcome.isErr {α : Type} : Outcome α → Bool
  | .err _ => true
  | _ => false

/-- The options literal passed to `gtm.Start`. -/
def gtmStartOptions : gtmOptions :=
  { After := none
    ChannelSize := 10000
    BufferDuration := 100 * 1000000
    UpdateDataAsDelta := true
    WorkerCount := 8 }

/-- `createGTMClient`: the actions performed and how the call ends. -/
def createGTMClient (w : World) (globalConfig : Option config.oplogtoredisConfiguration) :
    List Action × Outcome Unit :=
  match w.stdLogMongo with
  | some err => ([.NewStdLogAt], .err ("Could not create a std logger: " ++ err))
  | none =>
    match config.MongoURL globalConfig with
    | none => ([.NewStdLogAt, .mgoSetLogger, .accessor .MongoURL, .nilDereference], .crash)
    | some url =>
      match w.mongourlParse url with
      | .error err =>
        ([.NewStdLogAt, .mgoSetLogger, .accessor .MongoURL, .mongourlParse url],
          .err ("Could not parse Mongo URL: " ++ err))
      | .ok dialInfo =>
        match w.mgoDial dialInfo with
        | some err =>
          ([.NewStdLogAt, .mgoSetLogger, .accessor .MongoURL, .mongourlParse url,
            .DialWithInfo dialInfo],
            .err ("Error connecting to Mongo: " ++ err))
        | none =>
          ([.NewStdLogAt, .mgoSetLogger, .accessor .MongoURL, .mongourlParse url,
            .DialWithInfo dialInfo, .SetMode, .gtmStart gtmStartOptions, .goLogErrors .ErrC],
            .ok ())

/-- `createRedisClient`: the actions performed and how the call ends. -/
def createRedisClient (w : World) (globalConfig : Option config.oplogtoredisConfiguration) :
    List Action × Outcome Unit :=
  match w.stdLogRedis with
  | some err => ([.NewStdLogAt], .err ("Could not create a std logger: " ++ err))
  | none =>
    match config.RedisURL globalConfig with
    | none => ([.NewStdLogAt, .redisSetLogger, .accessor .RedisURL, .nilDereference], .crash)
    | some url =>
      match w.redisParseURL url with
      | .error err =>
        ([.NewStdLogAt, .redisSetLogger, .accessor .RedisURL, .redisParseURL url],
          .err ("Error parsing Redis URL: " ++ err))
      | .ok parsedRedisURL =>
        let opts : UniversalOptions :=
          { Addrs := [parsedRedisURL.Addr]
            DB := parsedRedisURL.DB
            Password := parsedRedisURL.Password }
        match w.redisPing opts with
        | some err =>
          ([.NewStdLogAt, .redisSetLogger, .accessor .RedisURL, .redisParseURL url,
            .NewUniversalClient opts, .Ping],
            .err ("Redis ping failed: " ++ err))
        | none =>
          ([.NewStdLogAt, .redisSetLogger, .accessor .RedisURL, .redisParseURL url,
            .NewUniversalClient opts, .Ping],
            .ok ())

/-- A run of `main`: the actions in order, and `globalConfig` at the end. -/
structure Run where
  trace : List Action
  globalConfig : Option config.oplogtoredisConfiguration

/-- The part of `main` after both clients exist: channel creation, the two
`go` statements (the arguments of a `go` statement, accessor calls included,
are evaluated by `main` itself, in order), and the wait for the interrupt
followed by the shutdown. The deferred calls registered so far run when `main`
returns or panics, last registered first. A send on a stop channel is taken to
complete: the workers are cooperative and receive the stop signal at their
next suspension point. -/
def startWorkers (w : World) (globalConfig : Option config.oplogtoredisConfiguration) :
    List Action :=
  let deferred : List Action := [.redisClose, .gtmStop, .mongoClose, .logSync]
  let pre : List Action :=
    [.makeChan .redisPubs 10000, .makeChan .stopOplogTail 0,
     .goTail .OpC .redisPubs .stopOplogTail, .makeChan .stopRedisPub 0,
     .accessor .TimestampFlushInterval]
  match config.TimestampFlushInterval globalConfig with
  | none => pre ++ .nilDereference :: deferred
  | some flush =>
    match config.RedisDedupeExpiration globalConfig with
    | none => pre ++ .accessor .RedisDedupeExpiration :: .nilDereference :: deferred
    | some dedupe =>
      match config.RedisMetadataPrefix globalConfig with
      | none =>
        pre ++ .accessor .RedisDedupeExpiration :: .accessor .RedisMetadataPrefix
          :: .nilDereference :: deferred
      | some metadata =>
        let started : List Action := pre ++
          [.accessor .RedisDedupeExpiration, .accessor .RedisMetadataPrefix,
           .goPublishStream .redisPubs
              { FlushInterval := flush, DedupeExpiration := dedupe, MetadataPrefix := metadata }
              .stopRedisPub,
           .logInfo "Started up processing goroutines",
           .makeChan .signalChan 1, .signalNotify .signalChan]
        match w.interrupt with
        | none => started ++ [.waitForever]
        | some sig =>
          started ++
            [.recvSignal .signalChan, .logWarnf sig, .signalReset,
             .send .stopOplogTail true, .send .stopRedisPub true] ++ deferred

/-- The function `main`, run from program start (`globalConfig` is nil). -/
def main (w : World) : Run :=
  match config.ParseEnv w.env none with
  | (some err, g) =>
    ⟨[.ParseEnv, .panic ("Error parsing environment variables: " ++ err), .logSync], g⟩
  | (none, g) =>
    match createGTMClient w g with
    | (t1, .crash) => ⟨.ParseEnv :: t1 ++ [.logSync], g⟩
    | (t1, .err e) =>
      ⟨.ParseEnv :: t1 ++ [.panic ("Error initialize oplog tailer: " ++ e), .logSync], g⟩
    | (t1, .ok ()) =>
      match createRedisClient w g with
      | (t2, .crash) =>
        ⟨.ParseEnv :: t1 ++ .logInfo "Initialized connection to Mongo" :: t2
          ++ [.gtmStop, .mongoClose, .logSync], g⟩
      | (t2, .err e) =>
        ⟨.ParseEnv :: t1 ++ .logInfo "Initialized connection to Mongo" :: t2
          ++ [.panic ("Error initializing Redis client: " ++ e),
              .gtmStop, .mongoClose, .logSync], g⟩
      | (t2, .ok ()) =>
        ⟨.ParseEnv :: t1 ++ .logInfo "Initialized connection to Mongo" :: t2
          ++ .logInfo "Initialized connection to Redis" :: startWorkers w g, g⟩

/-- Whether an action is one of the two `go` statements that start a worker. -/
def Action.startsWorker : Action → Bool
  | .goTail _ _ _ => true
  | .goPublishStream _ _ _ => true
  | _ => false

/-- Whether an action is a call of `panic` by the program. -/
def Action.isPanic : Action → Bool
  | .panic _ => true
  | _ => false

/-- Whether an action is a call of a configuration accessor. -/
def Action.isAccessor : Action → Bool
  | .accessor _ => true
  | _ => false

/-- Whether an action is a nil-pointer dereference. -/
def Action.isNilDereference : Action → Bool
  | .nilDereference => true
  | _ => false

/-- Whether an action is a send on a channel. -/
def Action.isSend : Action → Bool
  | .send _ _ => true
  | _ => false

/-- Whether an action installs a signal handler. -/
def Action.isNotify : Action → Bool
  | .signalNotify _ => true
  | _ => false

/-- Whether an action creates the queue `redisPubs`. -/
def Action.makesQueue : Action → Bool
  | .makeChan .redisPubs _ => true
  | _ => false

/-- Whether an action starts the oplog reader. -/
def Action.isGtmStart : Action → Bool
  | .gtmStart _ => true
  | _ => false

def Outcome.isOk {α : Type} : Outcome α → Bool
  | .ok _ => true
  | _ => false

/-- The stored configuration after the `ParseEnv` call of `main`. -/
def parsed (w : World) : Option config.oplogtoredisConfiguration :=
  (config.ParseEnv w.env none).2

/-- Whether the three start-up steps of `main` all succeed: `config.ParseEnv`
returns no error, and `createGTMClient` and `createRedisClient`, called with
the configuration it stored, return without error. -/
def startupSucceeds (w : World) : Bool :=
  (config.ParseEnv w.env none).1.isNone
    && (createGTMClient w (parsed w)).2.isOk
    && (createRedisClient w (parsed w)).2.isOk

/-- The universal options `createRedisClient` builds from a parsed URL. -/
def universalOptions (u : RedisOptions) : UniversalOptions :=
  { Addrs := [u.Addr], DB := u.DB, Password := u.Password }

/-- The actions of `main` up to and including the Redis ping. -/
def connected (cfg : config.oplogtoredisConfiguration) (d : DialInfo) (u : RedisOptions) :
    List Action :=
  [.ParseEnv, .NewStdLogAt, .mgoSetLogger, .accessor .MongoURL, .mongourlParse cfg.MongoURL,
   .DialWithInfo d, .SetMode, .gtmStart gtmStartOptions, .goLogErrors .ErrC,
   .logInfo "Initialized connection to Mongo",
   .NewStdLogAt, .redisSetLogger, .accessor .RedisURL, .redisParseURL cfg.RedisURL,
   .NewUniversalClient (universalOptions u), .Ping]

/-- The actions of `main` from the second log line to the registration of the
signal handler. -/
def launched (cfg : config.oplogtoredisConfiguration) : List Action :=
  [.logInfo "Initialized connection to Redis",
   .makeChan .redisPubs 10000, .makeChan .stopOplogTail 0,
   .goTail .OpC .redisPubs .stopOplogTail, .makeChan .stopRedisPub 0,
   .accessor .TimestampFlushInterval, .accessor .RedisDedupeExpiration,
   .accessor .RedisMetadataPrefix,
   .goPublishStream .redisPubs
     ⟨cfg.TimestampFlushInterval, cfg.RedisDedupeExpiration, cfg.RedisMetadataPrefix⟩
     .stopRedisPub,
   .logInfo "Started up processing goroutines",
   .makeChan .signalChan 1, .signalNotify .signalChan]

/-- The actions of `main` from the receipt of the interrupt on. -/
def shutdown (sig : String) : List Action :=
  [.recvSignal .signalChan, .logWarnf sig, .signalReset,
   .send .stopOplogTail true, .send .stopRedisPub true,
   .redisClose, .gtmStop, .mongoClose, .logSync]

/-- The entries that arrive on a channel handed to `oplog.Tail`: gtm delivers
the oplog on `OpC`; no other channel of `main` carries entries. -/
def World.entriesOn (w : World) : Chan → List oplog.ChangeEntry
  | .OpC => w.oplogEntries
  | _ => []

/-- The publications built in a run: those of every `oplog.Tail` that `main`
starts, from the channel it is started with. -/
def publications (w : World) : List oplog.Publication :=
  ((main w).trace.map fun a =>
    match a with
    | .goTail opC _ _ => oplog.Tail (w.entriesOn opC)
    | _ => []).flatten

/-! ### The error-logging goroutine of `createGTMClient` -/

/-- Control points of `go func() { for { err := <-ctx.ErrC; log.Log.Errorw(...) } }()`. -/
inductive LoggerPc
  /-- At or blocked in `err := <-ctx.ErrC`. -/
  | receive
  /-- About to call `log.Log.Errorw("Error tailing oplog", "error", err)`. -/
  | log (err : String)
  /-- The function literal has returned. -/
  | returned
  deriving DecidableEq, Repr

/-- State of the goroutine together with its channel: the errors sent on
`ctx.ErrC` and not yet received (oldest first) and the actions performed. -/
structure Logger where
  pc : LoggerPc
  ErrC : List String
  trace : List Action
  deriving DecidableEq, Repr

/-- The goroutine right after the `go` statement. -/
def Logger.init : Logger := ⟨.receive, [], []⟩

/-- One step of the goroutine. The loop `for { ... }` has no condition, `break`
or `return`: from the log call control goes back to the receive. A receive on
an empty channel blocks (the state does not change). -/
def Logger.step (s : Logger) : Logger :=
  match s.pc with
  | .receive =>
    match s.ErrC with
    | [] => s
    | err :: rest => { s with pc := .log err, ErrC := rest }
  | .log err =>
    { s with pc := .receive
             trace := s.trace ++ [.logErrorw "Error tailing oplog" "error" err] }
  | .returned => s

/-- What happens next around the goroutine: gtm sends an error on `ctx.ErrC`,
or the goroutine takes a step. -/
inductive Tick
  | deliver (err : String)
  | step
  deriving DecidableEq, Repr

def Logger.tick (s : Logger) : Tick → Logger
  | .deliver err => { s with ErrC := s.ErrC ++ [err] }
  | .step => s.step

/-- The goroutine after a sequence of ticks. -/
def Logger.exec (ticks : List Tick) (s : Logger) : Logger :=
  ticks.foldl Logger.tick s

/-- The errors delivered by a sequence of ticks, in arrival order. -/
def delivered : List Tick → List String
  | [] => []
  | .deliver err :: rest => err :: delivered rest
  | .step :: rest => delivered rest

/-- The error a goroutine holds between its receive and its log call. -/
def Logger.held (s : Logger) : List String :=
  match s.pc with
  | .log err => [err]
  | _ => []

/-- The log call for an error. -/
def logged (err : String) : Action := .logErrorw "Error tailing oplog" "error" err

/-! ### Signal handler -/

/-- Effect of one action on whether the handler of `main` for the interrupt
signal is installed: `signal.Notify` installs it, `signal.Reset` removes it. -/
def handlerStep (installed : Bool) : Action → Bool
  | .signalNotify _ => true
  | .signalReset => false
  | _ => installed

/-- Whether the handler is installed after a sequence of actions from program
start. While it is not, an interrupt takes its default effect and ends the
process at once. -/
def handlerInstalled (actions : List Action) : Bool :=
  actions.foldl handlerStep false

/-! ### Shutdown: `main` next to its two workers -/

/-- Where a worker goroutine (`oplog.Tail`, `redispub.PublishStream`) is. -/
inductive WorkerState
  | notStarted
  /-- In its loop, ready to receive on its stop channel. -/
  | running
  /-- Has received the stop signal and has not returned yet. -/
  | stopping
  | returned
  deriving DecidableEq, Repr

/-- The process during a run: the actions `main` has still to perform, the two
workers, and which connections are open. -/
structure Sys where
  todo : List Action
  tail : WorkerState
  pub : WorkerState
  mongoOpen : Bool
  gtmOpen : Bool
  redisOpen : Bool
  deriving DecidableEq, Repr

inductive Thread
  | main | tail | pub
  deriving DecidableEq, Repr

/-- Modelled from the spec: what a worker does when scheduled. The worker code
is missing from the sources; per the spec a running worker keeps running until
it receives its stop signal, and after the signal it completes the work in
flight (the Tailer pushes the entries already read, the Publisher flushes the
high-water mark one final time) and then returns. -/
def WorkerState.step : WorkerState → Option WorkerState
  | .running => some .running
  | .stopping => some .returned
  | _ => none

/-- One step of the chosen thread; `none` when it cannot move. `main` performs
its next action. The stop channels are unbuffered, so a send on one is a
rendezvous with the receiving worker, and the send alone completes it: `main`
has no other synchronisation with the workers. -/
def Sys.step (t : Thread) (s : Sys) : Option Sys :=
  match t with
  | .tail => s.tail.step.map fun v => { s with tail := v }
  | .pub => s.pub.step.map fun v => { s with pub := v }
  | .main =>
    match s.todo with
    | [] => none
    | .DialWithInfo _ :: rest => some { s with todo := rest, mongoOpen := true }
    | .gtmStart _ :: rest => some { s with todo := rest, gtmOpen := true }
    | .NewUniversalClient _ :: rest => some { s with todo := rest, redisOpen := true }
    | .goTail _ _ _ :: rest => some { s with todo := rest, tail := .running }
    | .goPublishStream _ _ _ :: rest => some { s with todo := rest, pub := .running }
    | .send .stopOplogTail _ :: rest =>
      if s.tail = .running then some { s with todo := rest, tail := .stopping } else none
    | .send .stopRedisPub _ :: rest =>
      if s.pub = .running then some { s with todo := rest, pub := .stopping } else none
    | .redisClose :: rest => some { s with todo := rest, redisOpen := false }
    | .gtmStop :: rest => some { s with todo := rest, gtmOpen := false }
    | .mongoClose :: rest => some { s with todo := rest, mongoOpen := false }
    | .waitForever :: _ => none
    | _ :: rest => some { s with todo := rest }

/-- The process after the threads have moved in the given order. -/
def Sys.exec : List Thread → Sys → Option Sys
  | [], s => some s
  | t :: ts, s => (s.step t).bind (Sys.exec ts)

/-- The process at program start. -/
def Sys.init (w : World) : Sys :=
  ⟨(main w).trace, .notStarted, .notStarted, false, false, false⟩

/-! ### Concrete inputs -/

/-- An environment that sets the two required variables and nothing else. -/
def urlsOnlyEnv : envconfig.Env := fun k =>
  if k = "OTR_REDIS_URL" then some "redis://localhost:6379"
  else if k = "OTR_MONGO_URL" then some "mongodb://localhost/app"
  else none

/-- An environment that sets every variable to a value other than its default. -/
def customEnv : envconfig.Env := fun k =>
  if k = "OTR_REDIS_URL" then some "redis://localhost:6379"
  else if k = "OTR_MONGO_URL" then some "mongodb://localhost/app"
  else if k = "OTR_BUFFER_SIZE" then some "5"
  else if k = "OTR_TIMESTAMP_FLUSH_INTERVAL" then some "2s"
  else if k = "OTR_MAX_CATCH_UP" then some "30s"
  else if k = "OTR_REDIS_DEDUPE_EXPIRATION" then some "3m"
  else if k = "OTR_REDIS_METADATA_PREFIX" then some "otr-a::"
  else none

/-- The environment `customEnv` with another metadata prefix. -/
def customEnvB : envconfig.Env := fun k =>
  if k = "OTR_REDIS_METADATA_PREFIX" then some "otr-b::" else customEnv k

/-- An environment without `OTR_MONGO_URL`. -/
def noMongoEnv : envconfig.Env := fun k =>
  if k = "OTR_REDIS_URL" then some "redis://localhost:6379" else none

/-- A world in which every start-up step succeeds and one interrupt arrives;
the checkpoint is ten seconds old. -/
def goodWorld (env : envconfig.Env) : World :=
  { env := env
    stdLogMongo := none
    mongourlParse := fun url => .ok url
    mgoDial := fun _ => none
    stdLogRedis := none
    redisParseURL := fun _ => .ok ⟨"localhost:6379", 0, ""⟩
    redisPing := fun _ => none
    interrupt := some "interrupt"
    checkpoint := some 990
    now := 1000
    oplogEntries := [⟨"app", "users", some "u1"⟩, ⟨"app", "users", none⟩] }

/-- A world in which Redis does not answer the ping. -/
def redisDownWorld : World :=
  { goodWorld urlsOnlyEnv with redisPing := fun _ => some "connection refused" }

/-- Whether an action that uses a configuration value uses the value held by
`cfg`: the URL handed to `mongourl.Parse` or `redis.ParseURL` is the one of
`cfg`, the options handed to `PublishStream` are built from the fields of
`cfg`, and an accessor call is one of the five accessors that `main` and the
two client constructors use. Other actions use no configuration value. -/
def Action.readsFrom (cfg : config.oplogtoredisConfiguration) : Action → Bool
  | .accessor f =>
    decide (f ∈ [config.Field.MongoURL, .RedisURL, .TimestampFlushInterval,
      .RedisDedupeExpiration, .RedisMetadataPrefix])
  | .mongourlParse url => decide (url = cfg.MongoURL)
  | .redisParseURL url => decide (url = cfg.RedisURL)
  | .goPublishStream _ opts _ =>
    decide (opts = ⟨cfg.TimestampFlushInterval, cfg.RedisDedupeExpiration,
      cfg.RedisMetadataPrefix⟩)
  | _ => true

/-- Whether a variable name starts with `OTR_`. -/
def isOtrVariable (k : String) : Bool := "OTR_".data.isPrefixOf k.data

/-- An action with the metadata prefix replaced where it carries one: only the
options of a `PublishStream` start do. -/
def Action.withMetadataPrefix (p : String) : Action → Action
  | .goPublishStream inp opts stop => .goPublishStream inp { opts with MetadataPrefix := p } stop
  | a => a

/-- The configuration that `customEnv` processes to. -/
def customConfiguration : config.oplogtoredisConfiguration :=
  { RedisURL := "redis://localhost:6379"
    MongoURL := "mongodb://localhost/app"
    BufferSize := 5
    TimestampFlushInterval := 2000000000
    MaxCatchUp := 30000000000
    RedisDedupeExpiration := 180000000000
    RedisMetadataPrefix := "otr-a::" }

/-! ## Theorems -/

/-- The runs of `main`, one case per way the start-up can go: what `ParseEnv`
returned and stored, how the two client constructors ended, and the actions
of the run. -/
theorem main_scenarios (w : World) :
    (∃ e,
        config.ParseEnv w.env none = (some e, none)
        ∧ main w = ⟨[.ParseEnv, .panic ("Error parsing environment variables: " ++ e),
            .logSync], none⟩)
    ∨ (∃ cfg e,
        config.ParseEnv w.env none = (none, some cfg)
        ∧ createGTMClient w (some cfg) = ([.NewStdLogAt],
            .err ("Could not create a std logger: " ++ e))
        ∧ main w = ⟨[.ParseEnv, .NewStdLogAt,
            .panic ("Error initialize oplog tailer: " ++ ("Could not create a std logger: "
            ++ e)), .logSync], some cfg⟩)
    ∨ (∃ cfg e,
        config.ParseEnv w.env none = (none, some cfg)
        ∧ createGTMClient w (some cfg) = ([.NewStdLogAt, .mgoSetLogger, .accessor .MongoURL,
            .mongourlParse cfg.MongoURL], .err ("Could not parse Mongo URL: " ++ e))
        ∧ main w = ⟨[.ParseEnv, .NewStdLogAt, .mgoSetLogger, .accessor .MongoURL,
            .mongourlParse cfg.MongoURL,
            .panic ("Error initialize oplog tailer: " ++ ("Could not parse Mongo URL: " ++ e)),
            .logSync], some cfg⟩)
    ∨ (∃ cfg d e,
        config.ParseEnv w.env none = (none, some cfg)
        ∧ createGTMClient w (some cfg) = ([.NewStdLogAt, .mgoSetLogger, .accessor .MongoURL,
            .mongourlParse cfg.MongoURL, .DialWithInfo d],
            .err ("Error connecting to Mongo: " ++ e))
        ∧ main w = ⟨[.ParseEnv, .NewStdLogAt, .mgoSetLogger, .accessor .MongoURL,
            .mongourlParse cfg.MongoURL, .DialWithInfo d,
            .panic ("Error initialize oplog tailer: " ++ ("Error connecting to Mongo: " ++ e)),
            .logSync], some cfg⟩)
    ∨ (∃ cfg d e,
        config.ParseEnv w.env none = (none, some cfg)
        ∧ createGTMClient w (some cfg) = ([.NewStdLogAt, .mgoSetLogger, .accessor .MongoURL,
            .mongourlParse cfg.MongoURL, .DialWithInfo d, .SetMode, .gtmStart gtmStartOptions,
            .goLogErrors .ErrC], .ok ())
        ∧ createRedisClient w (some cfg) = ([.NewStdLogAt],
            .err ("Could not create a std logger: " ++ e))
        ∧ main w = ⟨[.ParseEnv, .NewStdLogAt, .mgoSetLogger, .accessor .MongoURL,
            .mongourlParse cfg.MongoURL, .DialWithInfo d, .SetMode, .gtmStart gtmStartOptions,
            .goLogErrors .ErrC, .logInfo "Initialized connection to Mongo", .NewStdLogAt,
            .panic ("Error initializing Redis client: " ++ ("Could not create a std logger: "
            ++ e)), .gtmStop, .mongoClose, .logSync], some cfg⟩)
    ∨ (∃ cfg d e,
        config.ParseEnv w.env none = (none, some cfg)
        ∧ createGTMClient w (some cfg) = ([.NewStdLogAt, .mgoSetLogger, .accessor .MongoURL,
            .mongourlParse cfg.MongoURL, .DialWithInfo d, .SetMode, .gtmStart gtmStartOptions,
            .goLogErrors .ErrC], .ok ())
        ∧ createRedisClient w (some cfg) = ([.NewStdLogAt, .redisSetLogger, .accessor .RedisURL,
            .redisParseURL cfg.RedisURL], .err ("Error parsing Redis URL: " ++ e))
        ∧ main w = ⟨[.ParseEnv, .NewStdLogAt, .mgoSetLogger, .accessor .MongoURL,
            .mongourlParse cfg.MongoURL, .DialWithInfo d, .SetMode, .gtmStart gtmStartOptions,
            .goLogErrors .ErrC, .logInfo "Initialized connection to Mongo", .NewStdLogAt,
            .redisSetLogger, .accessor .RedisURL, .redisParseURL cfg.RedisURL,
            .panic ("Error initializing Redis client: " ++ ("Error parsing Redis URL: " ++ e)),
            .gtmStop, .mongoClose, .logSync], some cfg⟩)
    ∨ (∃ cfg d u e,
        config.ParseEnv w.env none = (none, some cfg)
        ∧ createGTMClient w (some cfg) = ([.NewStdLogAt, .mgoSetLogger, .accessor .MongoURL,
            .mongourlParse cfg.MongoURL, .DialWithInfo d, .SetMode, .gtmStart gtmStartOptions,
            .goLogErrors .ErrC], .ok ())
        ∧ createRedisClient w (some cfg) = ([.NewStdLogAt, .redisSetLogger, .accessor .RedisURL,
            .redisParseURL cfg.RedisURL, .NewUniversalClient (universalOptions u), .Ping],
            .err ("Redis ping failed: " ++ e))
        ∧ main w = ⟨[.ParseEnv, .NewStdLogAt, .mgoSetLogger, .accessor .MongoURL,
            .mongourlParse cfg.MongoURL, .DialWithInfo d, .SetMode, .gtmStart gtmStartOptions,
            .goLogErrors .ErrC, .logInfo "Initialized connection to Mongo", .NewStdLogAt,
            .redisSetLogger, .accessor .RedisURL, .redisParseURL cfg.RedisURL,
            .NewUniversalClient (universalOptions u), .Ping,
            .panic ("Error initializing Redis client: " ++ ("Redis ping failed: " ++ e)),
            .gtmStop, .mongoClose, .logSync], some cfg⟩)
    ∨ (∃ cfg d u,
        config.ParseEnv w.env none = (none, some cfg)
        ∧ createGTMClient w (some cfg) = ([.NewStdLogAt, .mgoSetLogger, .accessor .MongoURL,
            .mongourlParse cfg.MongoURL, .DialWithInfo d, .SetMode, .gtmStart gtmStartOptions,
            .goLogErrors .ErrC], .ok ())
        ∧ createRedisClient w (some cfg) = ([.NewStdLogAt, .redisSetLogger, .accessor .RedisURL,
            .redisParseURL cfg.RedisURL, .NewUniversalClient (universalOptions u), .Ping], .ok ())
        ∧ w.interrupt = none
        ∧ main w = ⟨connected cfg d u ++ launched cfg ++ [.waitForever], some cfg⟩)
    ∨ (∃ cfg d u sig,
        config.ParseEnv w.env none = (none, some cfg)
        ∧ createGTMClient w (some cfg) = ([.NewStdLogAt, .mgoSetLogger, .accessor .MongoURL,
            .mongourlParse cfg.MongoURL, .DialWithInfo d, .SetMode, .gtmStart gtmStartOptions,
            .goLogErrors .ErrC], .ok ())
        ∧ createRedisClient w (some cfg) = ([.NewStdLogAt, .redisSetLogger, .accessor .RedisURL,
            .redisParseURL cfg.RedisURL, .NewUniversalClient (universalOptions u), .Ping], .ok ())
        ∧ w.interrupt = some sig
        ∧ main w = ⟨connected cfg d u ++ launched cfg ++ shutdown sig, some cfg⟩) := by
  unfold main
  cases hP : envconfig.Process "otr" w.env config.zeroConfiguration with
  | error e =>
    exact Or.inl ⟨e, by simp [config.ParseEnv, hP], by simp [config.ParseEnv, hP]⟩
  | ok cfg =>
    have hpe : config.ParseEnv w.env none = (none, some cfg) := by simp [config.ParseEnv, hP]
    right
    cases h1 : w.stdLogMongo with
    | some e =>
      exact Or.inl ⟨cfg, e, hpe, by simp [createGTMClient, h1],
        by simp [hpe, createGTMClient, h1]⟩
    | none =>
      right
      cases h2 : w.mongourlParse cfg.MongoURL with
      | error e =>
        exact Or.inl ⟨cfg, e, hpe, by simp [createGTMClient, h1, h2, config.MongoURL],
          by simp [hpe, createGTMClient, h1, h2, config.MongoURL]⟩
      | ok d =>
        right
        cases h3 : w.mgoDial d with
        | some e =>
          exact Or.inl ⟨cfg, d, e, hpe, by simp [createGTMClient, h1, h2, h3, config.MongoURL],
            by simp [hpe, createGTMClient, h1, h2, h3, config.MongoURL]⟩
        | none =>
          right
          have hg : createGTMClient w (some cfg) =
              ([.NewStdLogAt, .mgoSetLogger, .accessor .MongoURL, .mongourlParse cfg.MongoURL,
                .DialWithInfo d, .SetMode, .gtmStart gtmStartOptions, .goLogErrors .ErrC],
                .ok ()) := by
            simp [createGTMClient, h1, h2, h3, config.MongoURL]
          cases h4 : w.stdLogRedis with
          | some e =>
            exact Or.inl ⟨cfg, d, e, hpe, hg, by simp [createRedisClient, h4],
              by simp [hpe, hg, createRedisClient, h4]⟩
          | none =>
            right
            cases h5 : w.redisParseURL cfg.RedisURL with
            | error e =>
              exact Or.inl ⟨cfg, d, e, hpe, hg,
                by simp [createRedisClient, h4, h5, config.RedisURL],
                by simp [hpe, hg, createRedisClient, h4, h5, config.RedisURL]⟩
            | ok u =>
              right
              cases h6 : w.redisPing (universalOptions u) with
              | some e =>
                simp only [universalOptions] at h6
                exact Or.inl ⟨cfg, d, u, e, hpe, hg,
                  by simp [createRedisClient, h4, h5, h6, config.RedisURL, universalOptions],
                  by simp [hpe, hg, createRedisClient, h4, h5, h6, config.RedisURL,
                    universalOptions]⟩
              | none =>
                right
                have hr : createRedisClient w (some cfg) =
                    ([.NewStdLogAt, .redisSetLogger, .accessor .RedisURL,
                      .redisParseURL cfg.RedisURL, .NewUniversalClient (universalOptions u),
                      .Ping], .ok ()) := by
                  simp only [universalOptions] at h6
                  simp [createRedisClient, h4, h5, h6, config.RedisURL, universalOptions]
                cases h7 : w.interrupt with
                | none =>
                  exact Or.inl ⟨cfg, d, u, hpe, hg, hr, rfl, by
                    simp [hpe, hg, hr, h7, startWorkers, connected, launched, universalOptions,
                      config.TimestampFlushInterval, config.RedisDedupeExpiration,
                      config.RedisMetadataPrefix]⟩
                | some sig =>
                  exact Or.inr ⟨cfg, d, u, sig, hpe, hg, hr, rfl, by
                    simp [hpe, hg, hr, h7, startWorkers, connected, launched, shutdown,
                      universalOptions, config.TimestampFlushInterval,
                      config.RedisDedupeExpiration, config.RedisMetadataPrefix]⟩

/-- Claim C3. A start-up step that returns an error (`config.ParseEnv`,
`createGTMClient`, `createRedisClient`) makes `main` panic without starting
`oplog.Tail` or `redispub.PublishStream`: the run contains a panic and no
worker start. A worker start occurs exactly in the runs in which all three
steps succeed, and in those both workers are started and there is no panic. -/
theorem startup_error_panics_before_workers (w : World) :
    (((config.ParseEnv w.env none).1.isSome = true
        ∨ (createGTMClient w (parsed w)).2.isErr = true
        ∨ (createRedisClient w (parsed w)).2.isErr = true) →
      (main w).trace.any Action.isPanic = true
        ∧ (main w).trace.any Action.startsWorker = false)
    ∧ (main w).trace.any Action.startsWorker = startupSucceeds w
    ∧ (main w).trace.any Action.isPanic = !startupSucceeds w
    ∧ (startupSucceeds w = true →
      Action.goTail .OpC .redisPubs .stopOplogTail ∈ (main w).trace
        ∧ ∃ opts, Action.goPublishStream .redisPubs opts .stopRedisPub ∈ (main w).trace) := by
  rcases main_scenarios w with
    ⟨e, hpe, hm⟩ | ⟨cfg, e, hpe, hg, hm⟩ | ⟨cfg, e, hpe, hg, hm⟩ | ⟨cfg, d, e, hpe, hg, hm⟩ |
    ⟨cfg, d, e, hpe, hg, hr, hm⟩ | ⟨cfg, d, e, hpe, hg, hr, hm⟩ |
    ⟨cfg, d, u, e, hpe, hg, hr, hm⟩ | ⟨cfg, d, u, hpe, hg, hr, hi, hm⟩ |
    ⟨cfg, d, u, sig, hpe, hg, hr, hi, hm⟩
  all_goals
    simp only [startupSucceeds, parsed, hpe, hm, *]
    refine ⟨?_, rfl, rfl, ?_⟩
    · first
      | exact fun _ => ⟨rfl, rfl⟩
      | simp [Outcome.isErr]
    · first
      | exact fun h => absurd h Bool.false_ne_true
      | exact fun _ => ⟨by simp [connected, launched],
          ⟨cfg.TimestampFlushInterval, cfg.RedisDedupeExpiration, cfg.RedisMetadataPrefix⟩,
          by simp [connected, launched]⟩

/-- Claim C8. In every run in which the start-up succeeds and `ParseEnv` has
stored the configuration `cfg`, `PublishStream` is started exactly once, with
`FlushInterval` the flush interval, `DedupeExpiration` the dedupe expiration
and `MetadataPrefix` the metadata prefix that the accessors return for `cfg`,
and on the queue `redisPubs` that `oplog.Tail` is started with as its output. -/
theorem publisher_options_from_configuration (w : World)
    (cfg : config.oplogtoredisConfiguration) (hcfg : parsed w = some cfg)
    (hok : startupSucceeds w = true) :
    config.TimestampFlushInterval (parsed w) = some cfg.TimestampFlushInterval
    ∧ config.RedisDedupeExpiration (parsed w) = some cfg.RedisDedupeExpiration
    ∧ config.RedisMetadataPrefix (parsed w) = some cfg.RedisMetadataPrefix
    ∧ (main w).trace.filter Action.startsWorker =
        [.goTail .OpC .redisPubs .stopOplogTail,
         .goPublishStream .redisPubs
           { FlushInterval := cfg.TimestampFlushInterval
             DedupeExpiration := cfg.RedisDedupeExpiration
             MetadataPrefix := cfg.RedisMetadataPrefix }
           .stopRedisPub] := by
  refine ⟨by rw [hcfg]; rfl, by rw [hcfg]; rfl, by rw [hcfg]; rfl, ?_⟩
  rcases main_scenarios w with
    ⟨e, hpe, hm⟩ | ⟨c, e, hpe, hg, hm⟩ | ⟨c, e, hpe, hg, hm⟩ | ⟨c, d, e, hpe, hg, hm⟩ |
    ⟨c, d, e, hpe, hg, hr, hm⟩ | ⟨c, d, e, hpe, hg, hr, hm⟩ |
    ⟨c, d, u, e, hpe, hg, hr, hm⟩ | ⟨c, d, u, hpe, hg, hr, hi, hm⟩ |
    ⟨c, d, u, sig, hpe, hg, hr, hi, hm⟩
  all_goals
    simp only [startupSucceeds, parsed, hpe, hm, *] at hok hcfg ⊢
    first
    | exact absurd hok Bool.false_ne_true
    | (cases hcfg; rfl)

/-- Claim C9. From program start (`globalConfig` nil), `ParseEnv` stores a
configuration exactly when it returns no error; when it returns an error
`main` panics and the run contains no accessor call; no run contains a
nil-pointer dereference; and a run that contains an accessor call has the
configuration `cfg` processed from the environment stored in `globalConfig`,
each of the five accessors returns the field of `cfg`, and every value the run
takes from the configuration is that field. -/
theorem accessors_never_dereference_nil (w : World) :
    (config.ParseEnv w.env none).1.isNone = (config.ParseEnv w.env none).2.isSome
    ∧ ((config.ParseEnv w.env none).1.isSome = true →
        (main w).trace.any Action.isPanic = true
          ∧ (main w).trace.any Action.isAccessor = false)
    ∧ (main w).trace.any Action.isNilDereference = false
    ∧ ((main w).trace.any Action.isAccessor = true →
        ∃ cfg, envconfig.Process "otr" w.env config.zeroConfiguration = .ok cfg
          ∧ (main w).globalConfig = some cfg
          ∧ config.MongoURL (main w).globalConfig = some cfg.MongoURL
          ∧ config.RedisURL (main w).globalConfig = some cfg.RedisURL
          ∧ config.TimestampFlushInterval (main w).globalConfig
              = some cfg.TimestampFlushInterval
          ∧ config.RedisDedupeExpiration (main w).globalConfig
              = some cfg.RedisDedupeExpiration
          ∧ config.RedisMetadataPrefix (main w).globalConfig = some cfg.RedisMetadataPrefix
          ∧ (main w).trace.all (Action.readsFrom cfg) = true) := by
  have hproc : ∀ cfg, config.ParseEnv w.env none = (none, some cfg) →
      envconfig.Process "otr" w.env config.zeroConfiguration = .ok cfg := by
    intro cfg h
    unfold config.ParseEnv at h
    cases hP : envconfig.Process "otr" w.env config.zeroConfiguration with
    | error e => simp [hP] at h
    | ok c => simp [hP] at h; rw [h]
  rcases main_scenarios w with
    ⟨e, hpe, hm⟩ | ⟨c, e, hpe, hg, hm⟩ | ⟨c, e, hpe, hg, hm⟩ | ⟨c, d, e, hpe, hg, hm⟩ |
    ⟨c, d, e, hpe, hg, hr, hm⟩ | ⟨c, d, e, hpe, hg, hr, hm⟩ |
    ⟨c, d, u, e, hpe, hg, hr, hm⟩ | ⟨c, d, u, hpe, hg, hr, hi, hm⟩ |
    ⟨c, d, u, sig, hpe, hg, hr, hi, hm⟩
  · simp only [hpe, hm]
    exact ⟨rfl, fun _ => ⟨rfl, rfl⟩, rfl, fun h => absurd h Bool.false_ne_true⟩
  · simp only [hpe, hm]
    exact ⟨rfl, fun h => absurd h Bool.false_ne_true, rfl, fun h => absurd h Bool.false_ne_true⟩
  all_goals
    simp only [hpe, hm]
    refine ⟨rfl, fun h => absurd h Bool.false_ne_true, rfl, fun _ =>
      ⟨c, hproc c hpe, rfl, rfl, rfl, rfl, rfl, rfl, ?_⟩⟩
    simp [Action.readsFrom, connected, launched, shutdown]

/-- Claim C6. In a run in which the start-up succeeds and an interrupt `sig`
arrives, the actions from the receipt of the interrupt on are: the log line,
`signal.Reset`, one send of the stop signal to the Tailer, one to the
Publisher, and the deferred calls. Before the receipt there is no send, the
handler is installed once and is in place when the interrupt arrives; the run
sends exactly the two stop signals, and in every state from `signal.Reset` on
the handler is not installed, so that a further interrupt is not captured. -/
theorem interrupt_resets_handler_then_stops_workers (w : World) (sig : String)
    (hok : startupSucceeds w = true) (hi : w.interrupt = some sig) :
    ∃ before,
      (main w).trace = before ++
        [.recvSignal .signalChan, .logWarnf sig, .signalReset,
         .send .stopOplogTail true, .send .stopRedisPub true,
         .redisClose, .gtmStop, .mongoClose, .logSync]
      ∧ before.any Action.isSend = false
      ∧ before.filter Action.isNotify = [.signalNotify .signalChan]
      ∧ handlerInstalled before = true
      ∧ (main w).trace.filter Action.isSend
          = [.send .stopOplogTail true, .send .stopRedisPub true]
      ∧ (main w).trace.filter Action.isNotify = [.signalNotify .signalChan]
      ∧ ∀ n, before.length + 3 ≤ n → handlerInstalled ((main w).trace.take n) = false := by
  rcases main_scenarios w with
    ⟨e, hpe, hm⟩ | ⟨c, e, hpe, hg, hm⟩ | ⟨c, e, hpe, hg, hm⟩ | ⟨c, d, e, hpe, hg, hm⟩ |
    ⟨c, d, e, hpe, hg, hr, hm⟩ | ⟨c, d, e, hpe, hg, hr, hm⟩ |
    ⟨c, d, u, e, hpe, hg, hr, hm⟩ | ⟨c, d, u, hpe, hg, hr, hi2, hm⟩ |
    ⟨c, d, u, s, hpe, hg, hr, hi2, hm⟩
  all_goals simp only [startupSucceeds, parsed, hpe, hm, *] at hok ⊢
  all_goals try exact absurd hok Bool.false_ne_true
  · rw [hi] at hi2; cases hi2
  · rw [hi] at hi2
    cases hi2
    refine ⟨connected c d u ++ launched c, by simp [shutdown], rfl, rfl, rfl, rfl, rfl, ?_⟩
    intro n hn
    obtain ⟨k, rfl⟩ := Nat.exists_eq_add_of_le' hn
    have hlen : (connected c d u ++ launched c).length = 28 := by rfl
    rw [hlen]
    rcases k with _ | _ | _ | _ | _ | _ | k
    iterate 6 rfl
    rw [List.take_of_length_le (by simp [connected, launched, shutdown])]
    rfl

/-- Claim C1 (evaluation of the code). In every run in which the start-up
succeeds the queue `redisPubs` is created once, with capacity 10000, and the
accessor `BufferSize` is not called; with `OTR_BUFFER_SIZE=5` the start-up
succeeds, `config.BufferSize()` is 5 and the capacity is still 10000. -/
theorem queue_capacity_is_constant :
    (∀ w, startupSucceeds w = true →
      (main w).trace.filter Action.makesQueue = [.makeChan .redisPubs 10000]
        ∧ (main w).trace.all (fun a => decide (a ≠ .accessor .BufferSize)) = true)
    ∧ startupSucceeds (goodWorld customEnv) = true
    ∧ config.BufferSize (main (goodWorld customEnv)).globalConfig = some 5
    ∧ (main (goodWorld customEnv)).trace.filter Action.makesQueue
        = [.makeChan .redisPubs 10000] := by
  refine ⟨?_, by decide, by decide, by decide⟩
  intro w hok
  rcases main_scenarios w with
    ⟨e, hpe, hm⟩ | ⟨c, e, hpe, hg, hm⟩ | ⟨c, e, hpe, hg, hm⟩ | ⟨c, d, e, hpe, hg, hm⟩ |
    ⟨c, d, e, hpe, hg, hr, hm⟩ | ⟨c, d, e, hpe, hg, hr, hm⟩ |
    ⟨c, d, u, e, hpe, hg, hr, hm⟩ | ⟨c, d, u, hpe, hg, hr, hi, hm⟩ |
    ⟨c, d, u, sig, hpe, hg, hr, hi, hm⟩
  all_goals simp only [startupSucceeds, parsed, hpe, hm, *] at hok ⊢
  all_goals first
    | exact absurd hok Bool.false_ne_true
    | exact ⟨rfl, rfl⟩

/-- Claim C2 (evaluation of the code). A run does not depend on the stored
checkpoint or on the clock, never calls the accessor `MaxCatchUp`, and, when
the start-up succeeds, starts the oplog reader once with the fixed options,
whose `After` is unset (start at the end of the oplog). In the world
`goodWorld urlsOnlyEnv` the checkpoint is 10 s old and `MaxCatchUp` is 60 s,
yet the reader is started with `After` unset. -/
theorem oplog_start_ignores_checkpoint :
    (∀ (w : World) (checkpoint : Option Int) (now : Int),
      main { w with checkpoint := checkpoint, now := now } = main w)
    ∧ (∀ w, startupSucceeds w = true →
      (main w).trace.filter Action.isGtmStart = [.gtmStart gtmStartOptions]
        ∧ (main w).trace.all (fun a => decide (a ≠ .accessor .MaxCatchUp)) = true)
    ∧ gtmStartOptions.After = none
    ∧ startupSucceeds (goodWorld urlsOnlyEnv) = true
    ∧ (goodWorld urlsOnlyEnv).checkpoint = some 990
    ∧ (goodWorld urlsOnlyEnv).now = 1000
    ∧ config.MaxCatchUp (main (goodWorld urlsOnlyEnv)).globalConfig = some 60000000000
    ∧ (main (goodWorld urlsOnlyEnv)).trace.filter Action.isGtmStart
        = [.gtmStart { After := none, ChannelSize := 10000, BufferDuration := 100000000,
                       UpdateDataAsDelta := true, WorkerCount := 8 }] := by
  refine ⟨fun _ _ _ => rfl, ?_, rfl, by decide, rfl, rfl, by decide, by decide⟩
  intro w hok
  rcases main_scenarios w with
    ⟨e, hpe, hm⟩ | ⟨c, e, hpe, hg, hm⟩ | ⟨c, e, hpe, hg, hm⟩ | ⟨c, d, e, hpe, hg, hm⟩ |
    ⟨c, d, e, hpe, hg, hr, hm⟩ | ⟨c, d, e, hpe, hg, hr, hm⟩ |
    ⟨c, d, u, e, hpe, hg, hr, hm⟩ | ⟨c, d, u, hpe, hg, hr, hi, hm⟩ |
    ⟨c, d, u, sig, hpe, hg, hr, hi, hm⟩
  all_goals simp only [startupSucceeds, parsed, hpe, hm, *] at hok ⊢
  all_goals first
    | exact absurd hok Bool.false_ne_true
    | exact ⟨rfl, rfl⟩

/-- Claim C4 (evaluation of the code). In the world `goodWorld urlsOnlyEnv`
there is a schedule, the one in which only `main` moves, after which `main` has
closed the Redis client, stopped gtm and closed the Mongo session while both
workers have received their stop signal and have not yet returned. Under
another schedule both workers return before the first connection is closed:
which of the two happens is left to the scheduler, `main` does not wait. -/
theorem connections_released_before_workers_return :
    (∃ s, Sys.exec (List.replicate 36 Thread.main) (Sys.init (goodWorld urlsOnlyEnv)) = some s
      ∧ s.todo = [.logSync]
      ∧ s.tail = .stopping ∧ s.pub = .stopping
      ∧ s.redisOpen = false ∧ s.gtmOpen = false ∧ s.mongoOpen = false)
    ∧ (∃ s, Sys.exec (List.replicate 33 Thread.main ++ [.tail, .pub])
          (Sys.init (goodWorld urlsOnlyEnv)) = some s
      ∧ s.todo = [.redisClose, .gtmStop, .mongoClose, .logSync]
      ∧ s.tail = .returned ∧ s.pub = .returned
      ∧ s.redisOpen = true ∧ s.gtmOpen = true ∧ s.mongoOpen = true) := by
  decide

theorem keyOf_RedisURL : envconfig.keyOf "otr" .RedisURL = "OTR_REDIS_URL" := by decide

theorem keyOf_MongoURL : envconfig.keyOf "otr" .MongoURL = "OTR_MONGO_URL" := by decide

theorem keyOf_BufferSize : envconfig.keyOf "otr" .BufferSize = "OTR_BUFFER_SIZE" := by decide

theorem keyOf_TimestampFlushInterval :
    envconfig.keyOf "otr" .TimestampFlushInterval = "OTR_TIMESTAMP_FLUSH_INTERVAL" := by decide

theorem keyOf_MaxCatchUp : envconfig.keyOf "otr" .MaxCatchUp = "OTR_MAX_CATCH_UP" := by decide

theorem keyOf_RedisDedupeExpiration :
    envconfig.keyOf "otr" .RedisDedupeExpiration = "OTR_REDIS_DEDUPE_EXPIRATION" := by decide

theorem keyOf_RedisMetadataPrefix :
    envconfig.keyOf "otr" .RedisMetadataPrefix = "OTR_REDIS_METADATA_PREFIX" := by decide

/-- With only the two URLs set, `envconfig.Process` fills the struct with the
URLs and the defaults of the tags. -/
theorem Process_urls_only (env : envconfig.Env) (redis mongo : String)
    (hr : env "OTR_REDIS_URL" = some redis) (hm : env "OTR_MONGO_URL" = some mongo)
    (hothers : ∀ k, isOtrVariable k = true → k ≠ "OTR_REDIS_URL" → k ≠ "OTR_MONGO_URL" →
      env k = none) :
    envconfig.Process "otr" env config.zeroConfiguration =
      .ok ⟨redis, mongo, 10000, 1000000000, 60000000000, 120000000000, "oplogtoredis::"⟩ := by
  have h1 : env "OTR_BUFFER_SIZE" = none := hothers _ (by decide) (by decide) (by decide)
  have h2 : env "OTR_TIMESTAMP_FLUSH_INTERVAL" = none :=
    hothers _ (by decide) (by decide) (by decide)
  have h3 : env "OTR_MAX_CATCH_UP" = none := hothers _ (by decide) (by decide) (by decide)
  have h4 : env "OTR_REDIS_DEDUPE_EXPIRATION" = none :=
    hothers _ (by decide) (by decide) (by decide)
  have h5 : env "OTR_REDIS_METADATA_PREFIX" = none :=
    hothers _ (by decide) (by decide) (by decide)
  have p1 : envconfig.parseInt "10000" = some 10000 := by decide
  have p2 : envconfig.parseDuration "1s" = some 1000000000 := by decide
  have p3 : envconfig.parseDuration "60s" = some 60000000000 := by decide
  have p4 : envconfig.parseDuration "120s" = some 120000000000 := by decide
  simp [envconfig.Process, config.allFields, envconfig.processFields, keyOf_RedisURL,
    keyOf_MongoURL, keyOf_BufferSize, keyOf_TimestampFlushInterval, keyOf_MaxCatchUp,
    keyOf_RedisDedupeExpiration, keyOf_RedisMetadataPrefix, hr, hm, h1, h2, h3, h4, h5,
    config.Field.default, config.Field.required, envconfig.processField, p1, p2, p3, p4,
    config.zeroConfiguration]

/-- Without one of the two URLs, `envconfig.Process` returns the error that
names the first missing required key. -/
theorem Process_url_missing (env : envconfig.Env) (c : config.oplogtoredisConfiguration)
    (h : env "OTR_REDIS_URL" = none ∨ env "OTR_MONGO_URL" = none) :
    envconfig.Process "otr" env c = .error "required key OTR_REDIS_URL missing value"
    ∨ envconfig.Process "otr" env c = .error "required key OTR_MONGO_URL missing value" := by
  cases hr : env "OTR_REDIS_URL" with
  | none =>
    left
    simp [envconfig.Process, config.allFields, envconfig.processFields, keyOf_RedisURL, hr,
      config.Field.default, config.Field.required]
  | some r =>
    have hm : env "OTR_MONGO_URL" = none := by
      rcases h with h | h
      · rw [hr] at h; cases h
      · exact h
    right
    simp [envconfig.Process, config.allFields, envconfig.processFields, keyOf_RedisURL,
      keyOf_MongoURL, hr, hm, config.Field.default, config.Field.required,
      envconfig.processField]

/-- Claim C10. In an environment that sets `OTR_REDIS_URL` and `OTR_MONGO_URL`
and no other variable starting with `OTR_`, `ParseEnv` returns no error and the
accessors return the given URLs and the defaults: buffer size 10000, flush
interval 1 s, max catch-up 60 s, dedupe expiration 120 s, metadata prefix
`oplogtoredis::` (durations in nanoseconds). In an environment in which one of
the two URLs is unset, `ParseEnv` returns an error and stores nothing. -/
theorem ParseEnv_defaults_and_required (env : envconfig.Env)
    (g : Option config.oplogtoredisConfiguration) :
    (∀ redis mongo, env "OTR_REDIS_URL" = some redis → env "OTR_MONGO_URL" = some mongo →
      (∀ k, isOtrVariable k = true → k ≠ "OTR_REDIS_URL" → k ≠ "OTR_MONGO_URL" →
        env k = none) →
      (config.ParseEnv env g).1 = none
        ∧ config.RedisURL (config.ParseEnv env g).2 = some redis
        ∧ config.MongoURL (config.ParseEnv env g).2 = some mongo
        ∧ config.BufferSize (config.ParseEnv env g).2 = some 10000
        ∧ config.TimestampFlushInterval (config.ParseEnv env g).2 = some 1000000000
        ∧ config.MaxCatchUp (config.ParseEnv env g).2 = some 60000000000
        ∧ config.RedisDedupeExpiration (config.ParseEnv env g).2 = some 120000000000
        ∧ config.RedisMetadataPrefix (config.ParseEnv env g).2 = some "oplogtoredis::")
    ∧ ((env "OTR_REDIS_URL" = none ∨ env "OTR_MONGO_URL" = none) →
      (config.ParseEnv env g).1.isSome = true ∧ (config.ParseEnv env g).2 = g) := by
  constructor
  · intro redis mongo hr hm hothers
    have hP := Process_urls_only env redis mongo hr hm hothers
    simp [config.ParseEnv, hP, config.RedisURL, config.MongoURL, config.BufferSize,
      config.TimestampFlushInterval, config.MaxCatchUp, config.RedisDedupeExpiration,
      config.RedisMetadataPrefix]
  · intro h
    rcases Process_url_missing env config.zeroConfiguration h with hP | hP <;>
      simp [config.ParseEnv, hP]

/-- Claim C10 at concrete environments: `urlsOnlyEnv` sets only the two URLs,
`noMongoEnv` leaves `OTR_MONGO_URL` unset. -/
theorem ParseEnv_defaults_and_required_witness :
    ((config.ParseEnv urlsOnlyEnv none).1 = none
      ∧ config.RedisURL (config.ParseEnv urlsOnlyEnv none).2 = some "redis://localhost:6379"
      ∧ config.MongoURL (config.ParseEnv urlsOnlyEnv none).2 = some "mongodb://localhost/app"
      ∧ config.BufferSize (config.ParseEnv urlsOnlyEnv none).2 = some 10000
      ∧ config.TimestampFlushInterval (config.ParseEnv urlsOnlyEnv none).2 = some 1000000000
      ∧ config.MaxCatchUp (config.ParseEnv urlsOnlyEnv none).2 = some 60000000000
      ∧ config.RedisDedupeExpiration (config.ParseEnv urlsOnlyEnv none).2 = some 120000000000
      ∧ config.RedisMetadataPrefix (config.ParseEnv urlsOnlyEnv none).2 = some "oplogtoredis::")
    ∧ ((config.ParseEnv noMongoEnv none).1.isSome = true
      ∧ (config.ParseEnv noMongoEnv none).2 = none) :=
  ⟨(ParseEnv_defaults_and_required urlsOnlyEnv none).1 _ _ (by decide) (by decide)
      (by
        intro k _ h1 h2
        simp [urlsOnlyEnv, h1, h2]),
    (ParseEnv_defaults_and_required noMongoEnv none).2 (Or.inr (by decide))⟩

/-- A tick keeps the bookkeeping of the goroutine: it has not returned, and
the log calls made, followed by the error held and the errors still on the
channel, are the errors delivered so far, in order. -/
theorem Logger.tick_invariant (s : Logger) (t : Tick) (ds : List String)
    (hpc : s.pc ≠ .returned)
    (hlog : s.trace ++ (s.held ++ s.ErrC).map logged = ds.map logged) :
    (s.tick t).pc ≠ .returned
      ∧ (s.tick t).trace ++ ((s.tick t).held ++ (s.tick t).ErrC).map logged
          = (ds ++ delivered [t]).map logged := by
  rcases s with ⟨pc, errC, trace⟩
  cases t with
  | deliver err =>
    refine ⟨hpc, ?_⟩
    simp only [Logger.tick, Logger.held, delivered, List.map_append, ← hlog,
      List.append_assoc]
  | step =>
    cases pc with
    | receive =>
      cases errC with
      | nil => exact ⟨hpc, by simpa [Logger.tick, Logger.step, delivered] using hlog⟩
      | cons e rest =>
        refine ⟨by simp [Logger.tick, Logger.step], ?_⟩
        simpa [Logger.tick, Logger.step, Logger.held, delivered] using hlog
    | log e =>
      refine ⟨by simp [Logger.tick, Logger.step], ?_⟩
      simpa [Logger.tick, Logger.step, Logger.held, delivered, logged] using hlog
    | returned => exact absurd rfl hpc

theorem delivered_append (xs ys : List Tick) :
    delivered (xs ++ ys) = delivered xs ++ delivered ys := by
  induction xs with
  | nil => rfl
  | cons t rest ih => cases t <;> simp [delivered, ih]

/-- The bookkeeping of `Logger.tick_invariant` holds after any sequence of
ticks. -/
theorem Logger.exec_invariant (ticks : List Tick) (s : Logger) (ds : List String)
    (hpc : s.pc ≠ .returned)
    (hlog : s.trace ++ (s.held ++ s.ErrC).map logged = ds.map logged) :
    (s.exec ticks).pc ≠ .returned
      ∧ (s.exec ticks).trace ++ ((s.exec ticks).held ++ (s.exec ticks).ErrC).map logged
          = (ds ++ delivered ticks).map logged := by
  induction ticks generalizing s ds with
  | nil =>
    refine ⟨hpc, ?_⟩
    simpa [Logger.exec, delivered] using hlog
  | cons t rest ih =>
    obtain ⟨h1, h2⟩ := Logger.tick_invariant s t ds hpc hlog
    have := ih (s.tick t) (ds ++ delivered [t]) h1 h2
    have hd : delivered (t :: rest) = delivered [t] ++ delivered rest :=
      delivered_append [t] rest
    simpa [Logger.exec, hd, List.append_assoc] using this

/-- A goroutine waiting in its receive logs everything on the channel when it
is given two steps per error, and further steps change nothing. -/
theorem Logger.drain_receive (errC : List String) (trace : List Action) (extra : Nat) :
    Logger.exec (List.replicate (2 * errC.length + extra) Tick.step) ⟨.receive, errC, trace⟩
      = ⟨.receive, [], trace ++ errC.map logged⟩ := by
  induction errC generalizing trace with
  | nil =>
    induction extra with
    | zero => simp [Logger.exec]
    | succ n ih =>
      simpa [Logger.exec, List.replicate_succ, Logger.tick, Logger.step] using ih
  | cons e rest ih =>
    have hlen : 2 * (e :: rest).length + extra = (2 * rest.length + extra) + 1 + 1 := by
      simp only [List.length_cons]; omega
    rw [hlen]
    have := ih (trace ++ [logged e])
    simpa [Logger.exec, List.replicate_succ, Logger.tick, Logger.step, logged,
      List.append_assoc] using this

/-- Claim C7. Whatever errors gtm delivers on `ctx.ErrC` and however the
deliveries interleave with the steps of the logging goroutine: the goroutine
never returns; its actions are log calls only, for a prefix of the delivered
errors in arrival order, none logged twice (the log calls, the error it holds
and the errors waiting on the channel are together the delivered errors); and
once it has been given enough steps every delivered error is logged exactly
once, in arrival order. -/
theorem error_logger_logs_each_error_once (ticks : List Tick) :
    (Logger.init.exec ticks).pc ≠ .returned
    ∧ (Logger.init.exec ticks).trace
        ++ ((Logger.init.exec ticks).held ++ (Logger.init.exec ticks).ErrC).map logged
        = (delivered ticks).map logged
    ∧ (∃ n, (Logger.init.exec ticks).trace = ((delivered ticks).take n).map logged)
    ∧ (∀ a ∈ (Logger.init.exec ticks).trace,
        ∃ err ∈ delivered ticks, a = .logErrorw "Error tailing oplog" "error" err)
    ∧ (∀ extra,
        (Logger.init.exec
            (ticks ++ List.replicate (2 * (delivered ticks).length + 1 + extra) Tick.step)).trace
          = (delivered ticks).map logged) := by
  obtain ⟨hpc, hlog⟩ := Logger.exec_invariant ticks Logger.init [] (by simp [Logger.init])
    (by simp [Logger.init, Logger.held])
  simp only [List.nil_append] at hlog
  have hinit : (Logger.init.exec ticks).trace
      = ((delivered ticks).take (Logger.init.exec ticks).trace.length).map logged := by
    have h := congrArg (List.take (Logger.init.exec ticks).trace.length) hlog
    rw [List.take_left] at h
    rw [List.map_take]
    exact h
  refine ⟨hpc, hlog, ⟨_, hinit⟩, ?_, ?_⟩
  · intro a ha
    rw [hinit, List.mem_map] at ha
    obtain ⟨err, herr, rfl⟩ := ha
    exact ⟨err, List.mem_of_mem_take herr, rfl⟩
  · intro extra
    have hlen := congrArg List.length hlog
    simp only [List.length_append, List.length_map] at hlen
    have hsplit : Logger.init.exec
        (ticks ++ List.replicate (2 * (delivered ticks).length + 1 + extra) Tick.step)
        = (Logger.init.exec ticks).exec
            (List.replicate (2 * (delivered ticks).length + 1 + extra) Tick.step) := by
      simp [Logger.exec, List.foldl_append]
    rw [hsplit]
    generalize Logger.init.exec ticks = s at hpc hlog hlen
    rcases s with ⟨pc, errC, trace⟩
    cases pc with
    | receive =>
      simp only [Logger.held, List.length_nil, Nat.zero_add, List.nil_append] at hlen hlog
      obtain ⟨k, hk⟩ : ∃ k, 2 * (delivered ticks).length + 1 + extra = 2 * errC.length + k :=
        ⟨2 * trace.length + 1 + extra, by omega⟩
      rw [hk, Logger.drain_receive]
      exact hlog
    | log e =>
      simp only [Logger.held, List.length_cons, List.length_nil, List.map_append,
        List.map_cons, List.map_nil] at hlen hlog
      obtain ⟨k, hk⟩ : ∃ k, 2 * (delivered ticks).length + 1 + extra
          = (2 * errC.length + k) + 1 := ⟨2 * trace.length + 2 + extra, by omega⟩
      rw [hk, List.replicate_succ]
      have hstep : Logger.exec (Tick.step :: List.replicate (2 * errC.length + k) Tick.step)
          (⟨.log e, errC, trace⟩ : Logger)
          = Logger.exec (List.replicate (2 * errC.length + k) Tick.step)
              ⟨.receive, errC, trace ++ [logged e]⟩ := by
        simp [Logger.exec, Logger.tick, Logger.step, logged]
      rw [hstep, Logger.drain_receive]
      simpa [List.append_assoc] using hlog
    | returned => exact absurd rfl hpc

/-- Every record built by the Tailer is on the namespace-wide channel of its
entry or on the document-scoped channel of its entry. -/
theorem oplog.Tail_channels (entries : List oplog.ChangeEntry) :
    ∀ p ∈ oplog.Tail entries,
      p.Channel = p.entry.database ++ "." ++ p.entry.collection
      ∨ ∃ id, p.entry.documentId = some id
          ∧ p.Channel = p.entry.database ++ "." ++ p.entry.collection ++ "::" ++ id := by
  intro p hp
  simp only [oplog.Tail, List.mem_flatten, List.mem_map] at hp
  obtain ⟨l, ⟨e, _, rfl⟩, hpl⟩ := hp
  unfold oplog.publicationsOf at hpl
  cases hid : e.documentId with
  | none =>
    simp [hid] at hpl
    subst hpl
    exact Or.inl rfl
  | some id =>
    simp [hid] at hpl
    rcases hpl with rfl | rfl
    · exact Or.inl rfl
    · exact Or.inr ⟨id, hid, rfl⟩

/-- Claim C5. Two runs whose configurations differ only in the Redis metadata
prefix (the environments process to `c` and to `c` with the prefix `p`; the
rest of the world is the same) perform the same actions except for the
`MetadataPrefix` option handed to `PublishStream`; `oplog.Tail` is started
with the same arguments, the publications and their channel names are
identical, and every channel name is `<db>.<collection>` or
`<db>.<collection>::<id>` of the entry it was built from. -/
theorem metadata_prefix_does_not_reach_channels (w : World) (env2 : envconfig.Env)
    (c : config.oplogtoredisConfiguration) (p : String)
    (h1 : envconfig.Process "otr" w.env config.zeroConfiguration = .ok c)
    (h2 : envconfig.Process "otr" env2 config.zeroConfiguration
      = .ok { c with RedisMetadataPrefix := p }) :
    (main { w with env := env2 }).trace = (main w).trace.map (Action.withMetadataPrefix p)
    ∧ publications { w with env := env2 } = publications w
    ∧ (publications { w with env := env2 }).map (·.Channel)
        = (publications w).map (·.Channel)
    ∧ ∀ q ∈ publications w,
        q.Channel = q.entry.database ++ "." ++ q.entry.collection
        ∨ ∃ id, q.entry.documentId = some id
            ∧ q.Channel = q.entry.database ++ "." ++ q.entry.collection ++ "::" ++ id := by
  have hpe1 : config.ParseEnv w.env none = (none, some c) := by simp [config.ParseEnv, h1]
  have hpe2 : config.ParseEnv env2 none = (none, some { c with RedisMetadataPrefix := p }) := by
    simp [config.ParseEnv, h2]
  have hgeq : createGTMClient { w with env := env2 } (some { c with RedisMetadataPrefix := p })
      = createGTMClient w (some c) := rfl
  have hreq : createRedisClient { w with env := env2 } (some { c with RedisMetadataPrefix := p })
      = createRedisClient w (some c) := rfl
  have htrace : (main { w with env := env2 }).trace
      = (main w).trace.map (Action.withMetadataPrefix p) := by
    rcases main_scenarios w with
      ⟨e, hpe, hm⟩ | ⟨c', e, hpe, hg, hm⟩ | ⟨c', e, hpe, hg, hm⟩ | ⟨c', d, e, hpe, hg, hm⟩ |
      ⟨c', d, e, hpe, hg, hr, hm⟩ | ⟨c', d, e, hpe, hg, hr, hm⟩ |
      ⟨c', d, u, e, hpe, hg, hr, hm⟩ | ⟨c', d, u, hpe, hg, hr, hi, hm⟩ |
      ⟨c', d, u, sig, hpe, hg, hr, hi, hm⟩
    all_goals
      rw [hpe1] at hpe
      cases hpe
    all_goals
      rw [hm]
      simp only [main, hpe2, hgeq, hreq, hg]
      try simp only [hr]
      try simp only [startWorkers, config.TimestampFlushInterval, config.RedisDedupeExpiration,
        config.RedisMetadataPrefix, Option.map, hi]
      rfl
  have hpub : publications { w with env := env2 } = publications w := by
    unfold publications
    rw [htrace, List.map_map]
    congr 1
    apply List.map_congr_left
    intro a _
    cases a <;> rfl
  refine ⟨htrace, hpub, by rw [hpub], ?_⟩
  intro q hq
  simp only [publications, List.mem_flatten, List.mem_map] at hq
  obtain ⟨l, ⟨a, _, rfl⟩, hql⟩ := hq
  cases a
  case goTail opC out stop => exact oplog.Tail_channels _ q hql
  all_goals simp at hql

/-- Claim C3 at a concrete input: Redis does not answer the ping, so
`createRedisClient` returns an error; the run panics and starts no worker. -/
theorem startup_error_panics_before_workers_witness :
    (createRedisClient redisDownWorld (parsed redisDownWorld)).2.isErr = true
    ∧ (main redisDownWorld).trace.any Action.isPanic = true
    ∧ (main redisDownWorld).trace.any Action.startsWorker = false :=
  ⟨by decide,
    (startup_error_panics_before_workers redisDownWorld).1 (Or.inr (Or.inr (by decide)))⟩

/-- Claim C8 at a concrete input: every setting differs from its default and
the two durations differ from each other. -/
theorem publisher_options_from_configuration_witness :
    parsed (goodWorld customEnv) = some customConfiguration
    ∧ startupSucceeds (goodWorld customEnv) = true
    ∧ (main (goodWorld customEnv)).trace.filter Action.startsWorker =
        [.goTail .OpC .redisPubs .stopOplogTail,
         .goPublishStream .redisPubs
           { FlushInterval := 2000000000
             DedupeExpiration := 180000000000
             MetadataPrefix := "otr-a::" }
           .stopRedisPub] :=
  ⟨by decide, by decide,
    (publisher_options_from_configuration (goodWorld customEnv) customConfiguration
      (by decide) (by decide)).2.2.2⟩

/-- Claim C9 at a concrete input without `OTR_MONGO_URL`: `ParseEnv` fails,
nothing is stored, `main` panics and calls no accessor. -/
theorem accessors_never_dereference_nil_witness :
    (config.ParseEnv noMongoEnv none).1.isSome = true
    ∧ (main (goodWorld noMongoEnv)).trace.any Action.isPanic = true
    ∧ (main (goodWorld noMongoEnv)).trace.any Action.isAccessor = false :=
  ⟨by decide, (accessors_never_dereference_nil (goodWorld noMongoEnv)).2.1 (by decide)⟩

/-- Claim C6 at a concrete input: the start-up succeeds and the signal
`interrupt` arrives. -/
theorem interrupt_resets_handler_then_stops_workers_witness :
    startupSucceeds (goodWorld urlsOnlyEnv) = true
    ∧ (goodWorld urlsOnlyEnv).interrupt = some "interrupt"
    ∧ ∃ before,
      (main (goodWorld urlsOnlyEnv)).trace = before ++
        [.recvSignal .signalChan, .logWarnf "interrupt", .signalReset,
         .send .stopOplogTail true, .send .stopRedisPub true,
         .redisClose, .gtmStop, .mongoClose, .logSync]
      ∧ before.any Action.isSend = false
      ∧ before.filter Action.isNotify = [.signalNotify .signalChan]
      ∧ handlerInstalled before = true
      ∧ (main (goodWorld urlsOnlyEnv)).trace.filter Action.isSend
          = [.send .stopOplogTail true, .send .stopRedisPub true]
      ∧ (main (goodWorld urlsOnlyEnv)).trace.filter Action.isNotify
          = [.signalNotify .signalChan]
      ∧ ∀ n, before.length + 3 ≤ n →
          handlerInstalled ((main (goodWorld urlsOnlyEnv)).trace.take n) = false :=
  ⟨by decide, rfl,
    interrupt_resets_handler_then_stops_workers (goodWorld urlsOnlyEnv) "interrupt"
      (by decide) rfl⟩

/-- Claim C7 at a concrete input: two errors arrive, the second while the
first is being logged; after enough steps both are logged once, in order. -/
theorem error_logger_logs_each_error_once_witness :
    (Logger.init.exec
      ([.deliver "EOF", .step, .deliver "i/o timeout", .step]
        ++ List.replicate 5 Tick.step)).trace
      = [.logErrorw "Error tailing oplog" "error" "EOF",
         .logErrorw "Error tailing oplog" "error" "i/o timeout"] :=
  (error_logger_logs_each_error_once
    [.deliver "EOF", .step, .deliver "i/o timeout", .step]).2.2.2.2 0

/-- Claim C5 at a concrete input: the environments `customEnv` and
`customEnvB` differ in `OTR_REDIS_METADATA_PREFIX` only; the oplog holds an
entry with a document id and one without. -/
theorem metadata_prefix_does_not_reach_channels_witness :
    envconfig.Process "otr" customEnv config.zeroConfiguration = .ok customConfiguration
    ∧ envconfig.Process "otr" customEnvB config.zeroConfiguration
        = .ok { customConfiguration with RedisMetadataPrefix := "otr-b::" }
    ∧ (publications (goodWorld customEnv)).map (·.Channel)
        = ["app.users", "app.users::u1", "app.users"]
    ∧ (publications (goodWorld customEnvB)).map (·.Channel)
        = (publications (goodWorld customEnv)).map (·.Channel)
    ∧ (main (goodWorld customEnvB)).trace
        = (main (goodWorld customEnv)).trace.map (Action.withMetadataPrefix "otr-b::") :=
  ⟨by rfl, by rfl, by decide,
    (metadata_prefix_does_not_reach_channels (goodWorld customEnv) customEnvB
      customConfiguration "otr-b::" (by rfl) (by rfl)).2.2.1,
    (metadata_prefix_does_not_reach_channels (goodWorld customEnv) customEnvB
      customConfiguration "otr-b::" (by rfl) (by rfl)).1⟩

end Oplogtoredis
